import Mathlib

/-!
Verification of the car-racing-game repository core.

Shallow embedding of the source:
- JavaScript numbers are modelled as real numbers (`ℝ`) for the physics,
  collision and grid code (where the source calls Math.sqrt / Math.floor),
  and as rationals (`ℚ`) for the game-loop timing code (which is purely
  rational arithmetic, so the embedding stays executable there).
- The mutable `Entity` component map (src/src/js/engine/Entity.js) is an
  association list with JavaScript-Map update semantics; side-effecting
  `cleanup()` hook invocations are materialised as an event log returned
  alongside the new entity state.
- A component's back-reference `component.entity = this` is modelled by an
  identity token (`Nat`) standing for the owning entity object.
-/

namespace CarRacing

/-! ## GameConfig (src/src/js/config/GameConfig.js) -/

/-- GameConfig.TRACK.TILE_WIDTH -/
noncomputable def TILE_WIDTH : ℝ := 40

/-- GameConfig.TRACK.TILE_HEIGHT -/
noncomputable def TILE_HEIGHT : ℝ := 40

/-- GameConfig.TRACK.COLS -/
def COLS : ℤ := 20

/-- GameConfig.TRACK.ROWS -/
def ROWS : ℤ := 15

/-- GameConfig.TRACK.TYPES.ROAD -/
def ROAD : ℕ := 0

/-- GameConfig.TRACK.TYPES.WALL -/
def WALL : ℕ := 1

/-- GameConfig.CAR.PHYSICS.COLLISION_BOUNCE -/
noncomputable def COLLISION_BOUNCE : ℝ := -0.1

/-- TRACK_GRID: the 20 x 15 tile-type array from GameConfig.js, row-major. -/
def TRACK_GRID : List ℕ :=
  [1,1,1,1,1, 1,1,1,1,1, 1,1,1,1,1, 1,1,1,1,1,
   1,0,3,0,0, 0,0,0,0,0, 0,0,0,0,1, 4,0,0,0,1,
   1,0,3,0,0, 0,0,0,0,0, 0,0,0,0,1, 4,2,2,0,1,
   1,4,1,1,1, 1,1,1,1,1, 1,0,0,0,1, 1,0,0,0,1,
   1,1,1,0,0, 1,4,4,0,1, 0,0,0,0,0, 1,0,0,0,1,
   1,0,0,0,0, 0,0,0,0,5, 0,0,0,0,1, 1,0,0,0,1,
   1,0,0,0,0, 0,0,0,0,0, 0,0,0,0,1, 1,0,0,0,1,
   1,0,0,5,0, 0,0,0,0,0, 0,0,0,0,1, 1,0,0,0,1,
   1,0,0,1,1, 1,1,1,1,1, 1,1,1,1,1, 1,0,0,0,1,
   1,0,0,0,0, 1,0,0,0,0, 0,0,0,0,1, 1,0,0,0,1,
   1,0,0,0,0, 1,0,0,0,0, 0,0,0,0,0, 1,0,0,0,1,
   1,0,0,0,0, 5,0,0,0,5, 0,0,0,0,0, 5,0,0,0,1,
   1,0,0,0,0, 0,0,0,0,1, 0,0,0,0,0, 0,0,0,0,1,
   1,0,0,0,0, 0,0,0,0,1, 1,0,0,0,0, 0,0,0,0,1,
   1,1,1,1,1, 1,1,1,1,1, 1,1,1,1,1, 1,1,1,1,1]

/-- getTrackTileAt(col, row): out-of-bounds reads return the wall type,
otherwise index row * COLS + col into TRACK_GRID. -/
def getTrackTileAt (col row : ℤ) : ℕ :=
  if col < 0 ∨ COLS ≤ col ∨ row < 0 ∨ ROWS ≤ row then WALL
  else TRACK_GRID.getD (row * COLS + col).toNat WALL

/-- isObstacle(col, row): any tile type other than ROAD is an obstacle. -/
def isObstacle (col row : ℤ) : Bool :=
  getTrackTileAt col row != ROAD

/-- worldToGrid(x, y): Math.floor of position over tile dimensions. -/
noncomputable def worldToGrid (x y : ℝ) : ℤ × ℤ :=
  (⌊x / TILE_WIDTH⌋, ⌊y / TILE_HEIGHT⌋)

/-- gridToWorld(col, row): world coordinates of the centre of the tile. -/
noncomputable def gridToWorld (col row : ℤ) : ℝ × ℝ :=
  (col * TILE_WIDTH + TILE_WIDTH / 2, row * TILE_HEIGHT + TILE_HEIGHT / 2)

/-! ## Components (src/unnamed/part_000: Transform, Physics) -/

/-- The Transform component: position, rotation, scale, velocity. -/
structure Transform where
  posX : ℝ
  posY : ℝ
  rotation : ℝ
  scaleX : ℝ
  scaleY : ℝ
  velX : ℝ
  velY : ℝ

/-- The base Physics component's data fields. -/
structure Physics where
  speed : ℝ
  maxSpeed : ℝ
  acceleration : ℝ
  friction : ℝ
  dirX : ℝ
  dirY : ℝ
  mass : ℝ
  bounce : ℝ
  isStatic : Bool

/-- Physics.applyForce(forceX, forceY): when not static, accumulate
magnitude / mass into the acceleration accumulator (only when the
magnitude is positive); the direction of the force is discarded. -/
noncomputable def Physics.applyForce (p : Physics) (forceX forceY : ℝ) : Physics :=
  if p.isStatic then p
  else
    let magnitude := Real.sqrt (forceX * forceX + forceY * forceY)
    if magnitude > 0 then
      { p with acceleration := p.acceleration + magnitude / p.mass }
    else p

/-- Physics.setDirection(x, y): normalize and store, only when the input
magnitude is positive. -/
noncomputable def Physics.setDirection (p : Physics) (x y : ℝ) : Physics :=
  let magnitude := Real.sqrt (x * x + y * y)
  if magnitude > 0 then
    { p with dirX := x / magnitude, dirY := y / magnitude }
  else p

/-- A Physics component together with its owning entity's Transform
component (if the entity has one): Physics.update writes velocity through
the back-reference, so the pair is the state one update call touches. -/
structure PhysEntity where
  phys : Physics
  transform : Option Transform

/-- Physics.update(deltaTime): skip entirely when static; otherwise
speed += acceleration * dt, speed *= friction, clamp speed to maxSpeed
from above, write direction * speed into the Transform velocity (when a
Transform is present), and reset the acceleration accumulator. -/
noncomputable def physicsUpdate (e : PhysEntity) (dt : ℝ) : PhysEntity :=
  if e.phys.isStatic then e
  else
    let s1 := e.phys.speed + e.phys.acceleration * dt
    let s2 := s1 * e.phys.friction
    let s3 := min s2 e.phys.maxSpeed
    { phys := { e.phys with speed := s3, acceleration := 0 },
      transform :=
        match e.transform with
        | some t => some { t with velX := e.phys.dirX * s3, velY := e.phys.dirY * s3 }
        | none => none }

/-- One externally triggered operation on a Physics component: either a
Physics.update tick or an applyForce call (the operations claim C5
interleaves). -/
inductive PhysOp where
  | upd (dt : ℝ)
  | force (fx fy : ℝ)

/-- Apply one operation to the physics-plus-transform state. -/
noncomputable def applyOp (e : PhysEntity) : PhysOp → PhysEntity
  | PhysOp.upd dt => physicsUpdate e dt
  | PhysOp.force fx fy => { e with phys := e.phys.applyForce fx fy }

/-- Run a sequence of update / applyForce operations left to right. -/
noncomputable def runOps (e : PhysEntity) (ops : List PhysOp) : PhysEntity :=
  ops.foldl applyOp e

/-! ## CarPhysics (src/src/js/entities/Car.js) -/

/-- The CarPhysics component state: the inherited Physics fields, the
owning entity's Transform, and the car-specific collision-grace fields. -/
structure CarState where
  phys : Physics
  transform : Option Transform
  startupTime : ℝ
  startupGracePeriod : ℝ
  hasMovedFromStart : Bool
  startPosition : Option (ℝ × ℝ)
  previousPosition : Option (ℝ × ℝ)

/-- The bookkeeping block at the top of CarPhysics.update: when the entity
has a Transform, latch the start position on first use, flip the
has-moved-from-start latch once the Euclidean distance from the start
exceeds 20, and record the current position as previousPosition. -/
noncomputable def carBookkeep (s : CarState) : CarState :=
  match s.transform with
  | none => s
  | some t =>
    let startPos :=
      match s.startPosition with
      | none => (t.posX, t.posY)
      | some p => p
    let distanceFromStart :=
      Real.sqrt ((t.posX - startPos.1) ^ 2 + (t.posY - startPos.2) ^ 2)
    let latch := if distanceFromStart > 20 then true else s.hasMovedFromStart
    { s with
      startPosition := some startPos,
      hasMovedFromStart := latch,
      previousPosition := some (t.posX, t.posY) }

/-- The `super.update(deltaTime)` call inside CarPhysics.update: the base
Physics.update applied to the inherited fields and the Transform. -/
noncomputable def carApplyBase (s : CarState) (dt : ℝ) : CarState :=
  let pe := physicsUpdate { phys := s.phys, transform := s.transform } dt
  { s with phys := pe.phys, transform := pe.transform }

/-- CarPhysics.checkTrackCollision: convert the Transform position to a
grid cell; on an obstacle tile, revert the position to previousPosition
(when stored) and multiply speed by COLLISION_BOUNCE. -/
noncomputable def carCheckTrackCollision (s : CarState) : CarState :=
  match s.transform with
  | none => s
  | some t =>
    let gridPos := worldToGrid t.posX t.posY
    if isObstacle gridPos.1 gridPos.2 then
      let t' :=
        match s.previousPosition with
        | some p => { t with posX := p.1, posY := p.2 }
        | none => t
      { s with
        transform := some t',
        phys := { s.phys with speed := s.phys.speed * COLLISION_BOUNCE } }
    else s

/-- CarPhysics.update with the collision check omitted: bookkeeping, then
the startup clock increment (deltaTime seconds converted to
milliseconds), then the base Physics.update.  This is exactly the path
the source takes when the grace-period guard fails. -/
noncomputable def carNoCollisionUpdate (s : CarState) (dt : ℝ) : CarState :=
  let s1 := carBookkeep s
  let s2 := { s1 with startupTime := s1.startupTime + dt * 1000 }
  carApplyBase s2 dt

/-- CarPhysics.update(deltaTime): bookkeeping, clock increment, base
update, then the track-collision check guarded by
startupTime > startupGracePeriod && hasMovedFromStart. -/
noncomputable def carPhysicsUpdate (s : CarState) (dt : ℝ) : CarState :=
  let b := carNoCollisionUpdate s dt
  if b.startupGracePeriod < b.startupTime ∧ b.hasMovedFromStart = true then
    carCheckTrackCollision b
  else b

/-! ## Entity component map (src/src/js/engine/Entity.js) -/

/-- A component as the Entity container sees it: a possibly-set
back-reference to an owning entity (identity token) and whether the
component defines a cleanup hook. -/
structure Comp where
  entityRef : Option Nat
  hasCleanup : Bool
deriving DecidableEq

/-- JavaScript Map.set semantics on an association list: replace in place
when the key is present (preserving insertion order), append otherwise. -/
def mapSet (m : List (String × Comp)) (k : String) (v : Comp) : List (String × Comp) :=
  if m.any (fun p => p.1 = k) then
    m.map (fun p => if p.1 = k then (k, v) else p)
  else m ++ [(k, v)]

/-- The Entity container state. -/
structure EntityState where
  id : Option Nat
  components : List (String × Comp)
  active : Bool
  tags : List String
deriving DecidableEq

/-- Entity.addComponent(componentName, component): store the component
under its name (Map.set), then set the component's back-reference to this
entity only when the component does not already have one.  The returned
list records the cleanup hooks invoked during the call — the source
invokes none here.  `token` is the identity of `this`. -/
def addComponent (token : Nat) (e : EntityState) (componentName : String)
    (component : Comp) : EntityState × List String :=
  let component' :=
    if component.entityRef.isSome then component
    else { component with entityRef := some token }
  ({ e with components := mapSet e.components componentName component' }, [])

/-- Entity.removeComponent(componentName): when present, invoke the
component's cleanup hook (when it has one) and delete the entry; the
returned list records the cleanup hooks invoked. -/
def removeComponent (e : EntityState) (componentName : String) :
    EntityState × List String :=
  match e.components.lookup componentName with
  | none => (e, [])
  | some component =>
    ({ e with components := e.components.filter (fun p => ¬ p.1 = componentName) },
     if component.hasCleanup then [componentName] else [])

/-! ## Game loop (src/unnamed/part_002: Game.gameLoop) -/

/-- Truncation toward zero, as used by the JavaScript % operator. -/
def jsTrunc (q : ℚ) : ℤ :=
  if q < 0 then ⌈q⌉ else ⌊q⌋

/-- The JavaScript remainder a % b (for b ≠ 0): a - b * trunc(a / b). -/
def jsMod (a b : ℚ) : ℚ :=
  a - b * jsTrunc (a / b)

/-- Game loop timing state: the running flag and lastFrameTime. -/
structure GameState where
  isRunning : Bool
  lastFrameTime : ℚ
deriving DecidableEq

/-- frameInterval = 1000 / targetFPS with targetFPS = 60. -/
def frameInterval : ℚ := 1000 / 60

/-- The externally observable work one gameLoop callback performs:
`upd dt` is a this.update(dt) invocation (dt in seconds), `render` is a
this.render() invocation. -/
inductive LoopEvent where
  | upd (dt : ℚ)
  | render
deriving DecidableEq

/-- Game.gameLoop(currentTime): do nothing when stopped; compute
deltaTime = currentTime - lastFrameTime; when deltaTime reaches
frameInterval, invoke update (with deltaTime in seconds) then render and
set lastFrameTime to currentTime minus the remainder
deltaTime % frameInterval; otherwise skip the frame.  Returns the new
timing state and the update/render invocations performed. -/
def gameLoopStep (g : GameState) (currentTime : ℚ) : GameState × List LoopEvent :=
  if g.isRunning = false then (g, [])
  else
    let deltaTime := currentTime - g.lastFrameTime
    if frameInterval ≤ deltaTime then
      ({ g with lastFrameTime := currentTime - jsMod deltaTime frameInterval },
       [LoopEvent.upd (deltaTime / 1000), LoopEvent.render])
    else (g, [])

/-! ## Theorems -/

/-- A concrete non-static physics component used as a witness input. -/
noncomputable def physW : PhysEntity :=
  { phys := { speed := 10, maxSpeed := 100, acceleration := 0, friction := 0.9,
              dirX := 1, dirY := 0, mass := 1, bounce := 0.5, isStatic := false },
    transform := none }

/-- A concrete static physics component used as a witness input. -/
noncomputable def physStaticW : PhysEntity :=
  { phys := { speed := 5, maxSpeed := 100, acceleration := 2, friction := 0.9,
              dirX := 1, dirY := 0, mass := 1, bounce := 0.5, isStatic := true },
    transform := none }

/-- Claim C9: Physics.update on a static component changes no field of
the component and writes no velocity into the owning entity's Transform,
for every deltaTime. -/
theorem physicsUpdate_static_identity (e : PhysEntity) (dt : ℝ)
    (h : e.phys.isStatic = true) : physicsUpdate e dt = e := by
  simp [physicsUpdate, h]

/-- Witness for C9: a concrete static component is untouched by update. -/
theorem physicsUpdate_static_identity_witness :
    physicsUpdate physStaticW 3 = physStaticW :=
  physicsUpdate_static_identity physStaticW 3 rfl

/-- Claim C8: with friction = 0.9, acceleration = 0, speed = 10,
maxSpeed = 100 and a non-static component, one Physics.update yields
speed = 9 for every deltaTime: friction is a flat per-tick multiplier,
not time-scaled. -/
theorem physicsUpdate_friction_flat (e : PhysEntity) (dt : ℝ)
    (hfr : e.phys.friction = 0.9) (hacc : e.phys.acceleration = 0)
    (hsp : e.phys.speed = 10) (hmax : e.phys.maxSpeed = 100)
    (hst : e.phys.isStatic = false) :
    (physicsUpdate e dt).phys.speed = 9 := by
  simp only [physicsUpdate, hst, Bool.false_eq_true, if_false, hfr, hacc, hsp, hmax,
    zero_mul, add_zero]
  norm_num [min_def]

/-- Witness for C8 at deltaTime = 7. -/
theorem physicsUpdate_friction_flat_witness :
    (physicsUpdate physW 7).phys.speed = 9 :=
  physicsUpdate_friction_flat physW 7 rfl rfl rfl rfl rfl

/-- Claim C10: converting a grid cell to world coordinates (tile centre)
and back by floor division is the identity, for every pair of integers. -/
theorem worldToGrid_gridToWorld (col row : ℤ) :
    worldToGrid (gridToWorld col row).1 (gridToWorld col row).2 = (col, row) := by
  have h : ∀ n : ℤ, ⌊((n : ℝ) * 40 + 40 / 2) / 40⌋ = n := by
    intro n
    rw [show ((n : ℝ) * 40 + 40 / 2) / 40 = (n : ℝ) + 1 / 2 by ring,
      Int.floor_int_add]
    norm_num
  simp only [worldToGrid, gridToWorld, TILE_WIDTH, TILE_HEIGHT, h]

/-- Claim C6: applyForce on a non-static component adds
sqrt(fx^2 + fy^2) / mass to the acceleration accumulator and changes
nothing else; two forces of equal magnitude have identical effect; on a
static component it changes nothing. -/
theorem applyForce_spec (p : Physics) (forceX forceY gx gy : ℝ) :
    (p.isStatic = false →
      p.applyForce forceX forceY =
        { p with acceleration :=
            p.acceleration + Real.sqrt (forceX * forceX + forceY * forceY) / p.mass })
    ∧ (p.isStatic = true → p.applyForce forceX forceY = p)
    ∧ (forceX * forceX + forceY * forceY = gx * gx + gy * gy →
        p.applyForce forceX forceY = p.applyForce gx gy) := by
  refine ⟨?_, ?_, ?_⟩
  · intro hst
    simp only [Physics.applyForce, hst, Bool.false_eq_true, if_false]
    by_cases hm : Real.sqrt (forceX * forceX + forceY * forceY) > 0
    · rw [if_pos hm]
    · rw [if_neg hm]
      have h0 : Real.sqrt (forceX * forceX + forceY * forceY) = 0 :=
        le_antisymm (not_lt.mp hm) (Real.sqrt_nonneg _)
      rw [h0, zero_div, add_zero, ← hst]
  · intro hst
    simp [Physics.applyForce, hst]
  · intro heq
    simp only [Physics.applyForce, heq]

/-- Witness for C6: applyForce(3, 4) on a unit-mass component adds 5. -/
theorem applyForce_spec_witness :
    physW.phys.applyForce 3 4 = { physW.phys with acceleration := 5 } := by
  have h := (applyForce_spec physW.phys 3 4 0 0).1 rfl
  have hs : Real.sqrt (3 * 3 + 4 * 4) = 5 := by
    rw [show (3 * 3 + 4 * 4 : ℝ) = 5 ^ 2 by norm_num]
    exact Real.sqrt_sq (by norm_num)
  rw [h, hs]
  norm_num [physW]

/-- Claim C7: setDirection with a non-zero input vector stores the
normalized unit vector; setDirection(0, 0) leaves the direction
unchanged. -/
theorem setDirection_spec (p : Physics) (x y : ℝ) :
    (¬(x = 0 ∧ y = 0) →
      p.setDirection x y =
        { p with dirX := x / Real.sqrt (x * x + y * y),
                 dirY := y / Real.sqrt (x * x + y * y) })
    ∧ p.setDirection 0 0 = p := by
  constructor
  · intro h
    have hpos : 0 < x * x + y * y := by
      rcases not_and_or.mp h with hx | hy
      · nlinarith [mul_self_pos.mpr hx, mul_self_nonneg y]
      · nlinarith [mul_self_pos.mpr hy, mul_self_nonneg x]
    have hs : 0 < Real.sqrt (x * x + y * y) := Real.sqrt_pos.mpr hpos
    simp only [Physics.setDirection]
    rw [if_pos hs]
  · simp [Physics.setDirection]

/-- Witness for C7: setDirection(3, 4) yields the unit vector
(0.6, 0.8). -/
theorem setDirection_spec_witness :
    physW.phys.setDirection 3 4 = { physW.phys with dirX := 0.6, dirY := 0.8 } := by
  have h := (setDirection_spec physW.phys 3 4).1 (by norm_num)
  have hs : Real.sqrt (3 * 3 + 4 * 4) = 5 := by
    rw [show (3 * 3 + 4 * 4 : ℝ) = 5 ^ 2 by norm_num]
    exact Real.sqrt_sq (by norm_num)
  rw [h, hs]
  norm_num

/-- Both update and applyForce leave the isStatic flag and maxSpeed of a
physics component unchanged. -/
lemma applyOp_fields (e : PhysEntity) (op : PhysOp) :
    (applyOp e op).phys.isStatic = e.phys.isStatic ∧
    (applyOp e op).phys.maxSpeed = e.phys.maxSpeed := by
  cases op with
  | upd dt =>
    cases h : e.phys.isStatic <;> simp [applyOp, physicsUpdate, h]
  | force fx fy =>
    simp only [applyOp, Physics.applyForce]
    by_cases h1 : e.phys.isStatic = true
    · rw [if_pos h1]; exact ⟨rfl, rfl⟩
    · rw [if_neg h1]
      by_cases h2 : Real.sqrt (fx * fx + fy * fy) > 0
      · rw [if_pos h2]; exact ⟨rfl, rfl⟩
      · rw [if_neg h2]; exact ⟨rfl, rfl⟩

/-- Running any operation sequence preserves the isStatic flag. -/
lemma runOps_isStatic (ops : List PhysOp) (e : PhysEntity) :
    (runOps e ops).phys.isStatic = e.phys.isStatic := by
  induction ops generalizing e with
  | nil => rfl
  | cons op ops ih =>
    calc (runOps e (op :: ops)).phys.isStatic
        = (runOps (applyOp e op) ops).phys.isStatic := rfl
      _ = (applyOp e op).phys.isStatic := ih (applyOp e op)
      _ = e.phys.isStatic := (applyOp_fields e op).1

/-- Claim C5: for a non-static physics component with friction at most 1,
after any sequence of updates interleaved with arbitrary applyForce
calls, speed observed right after an update never exceeds maxSpeed. -/
theorem physics_speed_le_maxSpeed (e : PhysEntity) (ops : List PhysOp) (dt : ℝ)
    (hst : e.phys.isStatic = false) (_hfr : e.phys.friction ≤ 1) :
    (runOps e (ops ++ [PhysOp.upd dt])).phys.speed ≤
      (runOps e (ops ++ [PhysOp.upd dt])).phys.maxSpeed := by
  have hsplit : runOps e (ops ++ [PhysOp.upd dt]) = physicsUpdate (runOps e ops) dt := by
    simp [runOps, List.foldl_append, applyOp]
  have hst' : (runOps e ops).phys.isStatic = false := (runOps_isStatic ops e).trans hst
  rw [hsplit]
  simp only [physicsUpdate, hst', Bool.false_eq_true, if_false]
  exact min_le_right _ _

/-- Witness for C5: the empty prefix followed by one update. -/
theorem physics_speed_le_maxSpeed_witness :
    (runOps physW ([] ++ [PhysOp.upd 1])).phys.speed ≤
      (runOps physW ([] ++ [PhysOp.upd 1])).phys.maxSpeed :=
  physics_speed_le_maxSpeed physW [] 1 rfl (by norm_num [physW])

/-- A lookup hit implies the any-test for the same key succeeds. -/
lemma any_of_lookup (m : List (String × Comp)) (k : String) (c : Comp)
    (h : m.lookup k = some c) : m.any (fun p => p.1 = k) = true := by
  induction m with
  | nil => simp [List.lookup] at h
  | cons q m ih =>
    rcases q with ⟨a, b⟩
    by_cases ha : a = k
    · simp [ha]
    · have hba : (k == a) = false := beq_eq_false_iff_ne.mpr (fun hk => ha hk.symm)
      simp only [List.lookup, hba] at h
      simp [List.any_cons, ih h]

/-- After replacing every entry carrying a present key, looking the key
up returns the new value. -/
lemma lookup_replace (m : List (String × Comp)) (k : String) (v : Comp)
    (h : m.any (fun p => p.1 = k) = true) :
    (m.map (fun p => if p.1 = k then (k, v) else p)).lookup k = some v := by
  induction m with
  | nil => simp at h
  | cons q m ih =>
    rcases q with ⟨a, b⟩
    by_cases ha : a = k
    · rw [List.map_cons]
      have hf : (if (a, b).1 = k then (k, v) else (a, b)) = (k, v) := if_pos ha
      rw [hf]
      simp [List.lookup]
    · rw [List.map_cons]
      have hf : (if (a, b).1 = k then (k, v) else (a, b)) = (a, b) := if_neg ha
      rw [hf]
      have hba : (k == a) = false := beq_eq_false_iff_ne.mpr (fun hk => ha hk.symm)
      simp only [List.lookup, hba]
      apply ih
      simpa [ha] using h

/-- Claim C1 (amended): addComponent on a kind already present replaces
the stored component and invokes no cleanup hook at all; the new
component's back-reference is set to this entity only when the component
does not already carry one. -/
theorem addComponent_replaces_no_cleanup (token : Nat) (e : EntityState)
    (componentName : String) (c1 c2 : Comp)
    (h : e.components.lookup componentName = some c1) :
    (addComponent token e componentName c2).2 = [] ∧
    (addComponent token e componentName c2).1.components.lookup componentName =
      some (if c2.entityRef.isSome then c2
            else { c2 with entityRef := some token }) := by
  constructor
  · rfl
  · simp only [addComponent, mapSet]
    rw [if_pos (any_of_lookup _ _ _ h)]
    exact lookup_replace _ _ _ (any_of_lookup _ _ _ h)

/-- A component with a cleanup hook and no back-reference, as stored
before the replacing addComponent call. -/
def c1comp : Comp := { entityRef := none, hasCleanup := true }

/-- A replacing component whose back-reference is already set to a
different entity (token 99). -/
def c2comp : Comp := { entityRef := some 99, hasCleanup := true }

/-- A concrete entity holding c1comp under the kind "Physics". -/
def entity0 : EntityState :=
  { id := none, components := [("Physics", c1comp)], active := true, tags := [] }

/-- Counterexample to claim C1 as stated: replacing the "Physics"
component of entity0 (identity token 1) invokes the replaced component's
cleanup zero times, not exactly once, and leaves the new component's
back-reference pointing at entity 99 rather than this entity. -/
theorem addComponent_cleanup_counterexample :
    ¬ ((addComponent 1 entity0 "Physics" c2comp).2.length = 1 ∧
       (addComponent 1 entity0 "Physics" c2comp).1.components.lookup "Physics" =
         some { c2comp with entityRef := some 1 }) := by
  decide

/-- Witness for the amended C1 at the concrete entity0. -/
theorem addComponent_replaces_no_cleanup_witness :
    (addComponent 1 entity0 "Physics" c2comp).2 = [] ∧
    (addComponent 1 entity0 "Physics" c2comp).1.components.lookup "Physics" =
      some (if c2comp.entityRef.isSome then c2comp
            else { c2comp with entityRef := some 1 }) :=
  addComponent_replaces_no_cleanup 1 entity0 "Physics" c1comp c2comp (by decide)

/-- Claim C2 (amended): the frame limiter measures elapsed time from the
stored lastFrameTime (which carries over the remainder of the previous
processed frame), not from the previous callback's timestamp: while the
loop runs, a callback less than frameInterval above lastFrameTime
performs zero update/render invocations, and a callback at or above it
performs exactly one update (with the elapsed time in seconds) followed
by one render. -/
theorem gameLoop_frame_limiter (g : GameState) (t : ℚ) (hrun : g.isRunning = true) :
    (t - g.lastFrameTime < frameInterval → (gameLoopStep g t).2 = []) ∧
    (frameInterval ≤ t - g.lastFrameTime →
      (gameLoopStep g t).2 =
        [LoopEvent.upd ((t - g.lastFrameTime) / 1000), LoopEvent.render]) := by
  have h1 : ¬ (g.isRunning = false) := by simp [hrun]
  constructor
  · intro h
    simp only [gameLoopStep]
    rw [if_neg h1, if_neg (not_le.mpr h)]
  · intro h
    simp only [gameLoopStep]
    rw [if_neg h1, if_pos h]

/-- Initial timing state: running, lastFrameTime 0. -/
def gLoop0 : GameState := { isRunning := true, lastFrameTime := 0 }

/-- Witness for the amended C2: a callback 100 ms after lastFrameTime
performs exactly one update (dt = 0.1 s) followed by one render. -/
theorem gameLoop_frame_limiter_witness :
    (gameLoopStep gLoop0 100).2 = [LoopEvent.upd (1 / 10), LoopEvent.render] := by
  have h := (gameLoop_frame_limiter gLoop0 100 rfl).2
    (by norm_num [gLoop0, frameInterval])
  rw [h]
  norm_num [gLoop0]

/-- Counterexample to claim C2 as stated: starting from lastFrameTime 0,
a first callback at t = 20 is processed and carries a remainder
(lastFrameTime becomes 50/3); the next callback at t = 34 is spaced only
14 ms after the previous callback — below the 1000/60 ms interval — yet
still performs an update/render pair. -/
theorem gameLoop_prev_callback_spacing_counterexample :
    (34 : ℚ) - 20 < frameInterval ∧
    (gameLoopStep (gameLoopStep gLoop0 20).1 34).2 ≠ [] := by
  constructor
  · norm_num [frameInterval]
  · norm_num [gameLoopStep, gLoop0, jsMod, jsTrunc, frameInterval]
    exact List.cons_ne_nil _ _

/-- The collision-free part of CarPhysics.update stores the entry
position as previousPosition when the entity has a Transform. -/
lemma carNoCollision_previousPosition (s : CarState) (t0 : Transform) (dt : ℝ)
    (ht : s.transform = some t0) :
    (carNoCollisionUpdate s dt).previousPosition = some (t0.posX, t0.posY) := by
  simp [carNoCollisionUpdate, carApplyBase, carBookkeep, ht]

/-- The collision-free part of CarPhysics.update leaves the grace-period
length unchanged. -/
lemma carNoCollision_grace (s : CarState) (dt : ℝ) :
    (carNoCollisionUpdate s dt).startupGracePeriod = s.startupGracePeriod := by
  rcases hs : s.transform with _ | t <;>
    simp [carNoCollisionUpdate, carApplyBase, carBookkeep, hs]

/-- The collision-free part of CarPhysics.update advances the startup
clock by deltaTime converted to milliseconds. -/
lemma carNoCollision_startupTime (s : CarState) (dt : ℝ) :
    (carNoCollisionUpdate s dt).startupTime = s.startupTime + dt * 1000 := by
  rcases hs : s.transform with _ | t <;>
    simp [carNoCollisionUpdate, carApplyBase, carBookkeep, hs]

/-- CarPhysics.update is the collision-free pipeline followed by the
guarded collision check. -/
lemma carPhysicsUpdate_as_guard (s : CarState) (dt : ℝ) :
    carPhysicsUpdate s dt =
      if (carNoCollisionUpdate s dt).startupGracePeriod <
           (carNoCollisionUpdate s dt).startupTime ∧
         (carNoCollisionUpdate s dt).hasMovedFromStart = true then
        carCheckTrackCollision (carNoCollisionUpdate s dt)
      else carNoCollisionUpdate s dt := rfl

/-- Claim C4: with a 2000 ms grace period, whenever the startup clock as
tested by CarPhysics.update stays below 2000 ms, or the
has-moved-from-start latch is still unset at the check, the update
performs no collision reversion at all: the result is exactly the
collision-free pipeline (position never snapped back, speed never
multiplied by the bounce coefficient), even on a wall cell. -/
theorem carPhysics_grace_no_collision (s : CarState) (dt : ℝ)
    (hg : s.startupGracePeriod = 2000)
    (h : (carNoCollisionUpdate s dt).startupTime < 2000 ∨
         (carNoCollisionUpdate s dt).hasMovedFromStart = false) :
    carPhysicsUpdate s dt = carNoCollisionUpdate s dt := by
  rw [carPhysicsUpdate_as_guard]
  rw [if_neg]
  rintro ⟨h1, h2⟩
  rcases h with h | h
  · rw [carNoCollision_grace, hg] at h1
    exact absurd h (not_lt.mpr h1.le)
  · rw [h] at h2
    exact Bool.false_ne_true h2

/-- A concrete fresh car (startup clock 0, latch unset, no Transform
attached) used as the C4 witness input. -/
noncomputable def carW : CarState :=
  { phys := { speed := 10, maxSpeed := 200, acceleration := 0, friction := 0.95,
              dirX := 1, dirY := 0, mass := 1, bounce := 0.5, isStatic := false },
    transform := none,
    startupTime := 0, startupGracePeriod := 2000,
    hasMovedFromStart := false, startPosition := none, previousPosition := none }

/-- Witness for C4: a fresh car one tick after spawn skips the collision
check. -/
theorem carPhysics_grace_no_collision_witness :
    carPhysicsUpdate carW (1 / 60) = carNoCollisionUpdate carW (1 / 60) := by
  apply carPhysics_grace_no_collision carW (1 / 60) rfl
  right
  simp [carNoCollisionUpdate, carApplyBase, carBookkeep, carW]

/-- Claim C3: once the startup clock tested by CarPhysics.update exceeds
the 2000 ms grace period and the has-moved-from-start latch is set, a
tick whose base update leaves the Transform position in a non-road grid
cell reverts the position to the stored previous-tick position and
multiplies speed by COLLISION_BOUNCE; a tick landing on a road cell
leaves position and speed exactly as the base update produced them. -/
theorem carPhysics_collision_response (s : CarState) (t0 t1 : Transform) (dt : ℝ)
    (ht : s.transform = some t0)
    (hbt : (carNoCollisionUpdate s dt).transform = some t1)
    (hg : s.startupGracePeriod = 2000)
    (hclock : 2000 < (carNoCollisionUpdate s dt).startupTime)
    (hlatch : (carNoCollisionUpdate s dt).hasMovedFromStart = true) :
    (isObstacle (worldToGrid t1.posX t1.posY).1 (worldToGrid t1.posX t1.posY).2 = true →
      (carPhysicsUpdate s dt).transform =
        some { t1 with posX := t0.posX, posY := t0.posY } ∧
      (carPhysicsUpdate s dt).phys.speed =
        (carNoCollisionUpdate s dt).phys.speed * COLLISION_BOUNCE ∧
      (carNoCollisionUpdate s dt).previousPosition = some (t0.posX, t0.posY)) ∧
    (isObstacle (worldToGrid t1.posX t1.posY).1 (worldToGrid t1.posX t1.posY).2 = false →
      carPhysicsUpdate s dt = carNoCollisionUpdate s dt) := by
  have hguard : (carNoCollisionUpdate s dt).startupGracePeriod <
      (carNoCollisionUpdate s dt).startupTime ∧
      (carNoCollisionUpdate s dt).hasMovedFromStart = true := by
    refine ⟨?_, hlatch⟩
    rw [carNoCollision_grace, hg]
    exact hclock
  have hr : carPhysicsUpdate s dt =
      carCheckTrackCollision (carNoCollisionUpdate s dt) := by
    rw [carPhysicsUpdate_as_guard, if_pos hguard]
  have hprev := carNoCollision_previousPosition s t0 dt ht
  constructor
  · intro hobs
    refine ⟨?_, ?_, hprev⟩
    · rw [hr]
      simp [carCheckTrackCollision, hbt, hobs, hprev]
    · rw [hr]
      simp [carCheckTrackCollision, hbt, hobs]
  · intro hobs
    rw [hr]
    simp [carCheckTrackCollision, hbt, hobs]

/-- A concrete car past the grace period (clock 3000 ms, latch set)
sitting at world position (10, 10) — grid cell (0, 0), a wall tile. -/
noncomputable def carC : CarState :=
  { phys := { speed := 10, maxSpeed := 200, acceleration := 0, friction := 0.95,
              dirX := 1, dirY := 0, mass := 1, bounce := 0.5, isStatic := false },
    transform := some { posX := 10, posY := 10, rotation := 0, scaleX := 1, scaleY := 1,
                        velX := 0, velY := 0 },
    startupTime := 3000, startupGracePeriod := 2000,
    hasMovedFromStart := true, startPosition := some (10, 10),
    previousPosition := none }

/-- Evaluation of the collision-free pipeline on carC at deltaTime 0:
speed decays to 9.5, velocity is rewritten, the entry position is
recorded as previousPosition. -/
lemma carC_base_eval :
    carNoCollisionUpdate carC 0 =
      { phys := { speed := 9.5, maxSpeed := 200, acceleration := 0, friction := 0.95,
                  dirX := 1, dirY := 0, mass := 1, bounce := 0.5, isStatic := false },
        transform := some { posX := 10, posY := 10, rotation := 0, scaleX := 1,
                            scaleY := 1, velX := 9.5, velY := 0 },
        startupTime := 3000, startupGracePeriod := 2000,
        hasMovedFromStart := true, startPosition := some (10, 10),
        previousPosition := some (10, 10) } := by
  simp only [carNoCollisionUpdate, carBookkeep, carApplyBase, physicsUpdate, carC]
  norm_num [Real.sqrt_zero, min_def]

/-- Witness for C3: the car on the wall cell keeps its entry position
(the stored previous-tick position) and has its speed 9.5 multiplied by
COLLISION_BOUNCE. -/
theorem carPhysics_collision_response_witness :
    (carPhysicsUpdate carC 0).transform =
      some { posX := 10, posY := 10, rotation := 0, scaleX := 1, scaleY := 1,
             velX := 9.5, velY := 0 } ∧
    (carPhysicsUpdate carC 0).phys.speed = 9.5 * COLLISION_BOUNCE := by
  have h := carPhysics_collision_response carC
    { posX := 10, posY := 10, rotation := 0, scaleX := 1, scaleY := 1,
      velX := 0, velY := 0 }
    { posX := 10, posY := 10, rotation := 0, scaleX := 1, scaleY := 1,
      velX := 9.5, velY := 0 }
    0 rfl (by rw [carC_base_eval]) rfl (by rw [carC_base_eval]; norm_num)
    (by rw [carC_base_eval])
  have hgrid : worldToGrid (10 : ℝ) (10 : ℝ) = (0, 0) := by
    simp only [worldToGrid, TILE_WIDTH, TILE_HEIGHT]
    norm_num
  have hobs : isObstacle (worldToGrid (10 : ℝ) (10 : ℝ)).1
      (worldToGrid (10 : ℝ) (10 : ℝ)).2 = true := by
    rw [hgrid]
    decide
  obtain ⟨h1, h2, _⟩ := h.1 hobs
  refine ⟨?_, ?_⟩
  · rw [h1]
  · rw [h2, carC_base_eval]

end CarRacing
